import Mathlib

/-!
Verification of the RoomPulse sensor-monitoring core (`data_logger.py`,
`error_manager.py`, `database_setup.py`) via a shallow embedding.

Real numbers from the Python code (sensor values, thresholds, intervals) are
modelled as rationals `ℚ`; Python's `round` (banker's rounding) is modelled as
exact round-half-to-even on `ℚ`; SQLite tables are modelled as Lean lists of
records; the threaded lifecycle is modelled as a labelled transition system.
-/

set_option linter.unusedVariables false

namespace RoomPulse

/-- The sensor types keyed by string in the Python lookup tables.  The
`other` constructor carries an arbitrary unknown type name, mirroring the
`dict.get(sensor_type, default)` fallbacks in the source. -/
inductive SensorType where
  | temperature
  | humidity
  | air_quality
  | smoke
  | gas
  | motion
  | sound
  | tampering
  | water_leak
  | light
  | other (name : String)
deriving DecidableEq, Repr

/-- Embeds Python's `x or d` for `x : Optional[float]`: `None` and `0.0` are
falsy, so both select the default `d`.  Used by `_get_value_ranges`
(`min_warning or 15`, etc.). -/
def pyOr (x : Option ℚ) (d : ℚ) : ℚ :=
  match x with
  | none => d
  | some v => if v = 0 then d else v

/-- Embeds `t is not None and value <= t` (the min-side threshold test used by
both `DataLogger._determine_status` and `ErrorManager.check_value`). -/
def leTrips (value : ℚ) : Option ℚ → Bool
  | none => false
  | some t => decide (value ≤ t)

/-- Embeds `t is not None and value >= t` (the max-side threshold test used by
both `DataLogger._determine_status` and `ErrorManager.check_value`). -/
def geTrips (value : ℚ) : Option ℚ → Bool
  | none => false
  | some t => decide (t ≤ value)

/-- Embeds `DataLogger._determine_status` (data_logger.py:222-232): an
if-chain returning the integer status codes 2 (Critical), 1 (Warning),
0 (Normal). -/
def determine_status (value : ℚ)
    (min_warning max_warning min_critical max_critical : Option ℚ) : ℕ :=
  if leTrips value min_critical then 2
  else if geTrips value max_critical then 2
  else if leTrips value min_warning then 1
  else if geTrips value max_warning then 1
  else 0

/-- Embeds the threshold-checking if/elif chain of `ErrorManager.check_value`
(error_manager.py:47-72), given the thresholds fetched for the sensor; returns
the severities of the alerts created (the elif chain creates at most one). -/
def check_value_severities
    (min_warning max_warning min_critical max_critical : Option ℚ)
    (value : ℚ) : List String :=
  if leTrips value min_critical then ["critical"]
  else if geTrips value max_critical then ["critical"]
  else if leTrips value min_warning then ["warning"]
  else if geTrips value max_warning then ["warning"]
  else []

/-- Embeds `DataLogger._get_value_ranges` (data_logger.py:198-211): per-type
`(change_range, min_val, max_val)` with Python-`or` fallbacks on the
configured warning thresholds.  `min_critical`/`max_critical` are accepted and
ignored, as in the source. -/
def get_value_ranges (sensor_type : SensorType)
    (min_warning max_warning : Option ℚ)
    (min_critical max_critical : Option ℚ) : ℚ × ℚ × ℚ :=
  match sensor_type with
  | .temperature => (1/2, pyOr min_warning 15, pyOr max_warning 35)
  | .humidity => (2, pyOr min_warning 20, pyOr max_warning 80)
  | .air_quality => (50, pyOr min_warning 400, pyOr max_warning 1500)
  | .smoke => (5, 0, pyOr max_warning 100)
  | .gas => (10, 0, pyOr max_warning 200)
  | .sound => (5, pyOr min_warning 20, pyOr max_warning 80)
  | .tampering => (1/20, pyOr min_warning (1/10), pyOr max_warning (2/5))
  | .water_leak => (1, 0, 1)
  | .light => (20, pyOr min_warning 300, pyOr max_warning 600)
  | _ => (5, pyOr min_warning 0, pyOr max_warning 100)

/-- The rounding precision (number of decimal places) selected by
`DataLogger._round_value` (data_logger.py:213-220). -/
def round_precision (sensor_type : SensorType) : ℕ :=
  match sensor_type with
  | .temperature | .humidity | .sound => 1
  | .tampering => 4
  | _ => 2

/-- Python's `min(a, b)` on two numbers (returns the first on ties). -/
def pymin (a b : ℚ) : ℚ := if b < a then b else a

/-- Python's `max(a, b)` on two numbers (returns the first on ties). -/
def pymax (a b : ℚ) : ℚ := if a < b then b else a

/-- Round half to even on `ℚ`, the idealisation of Python 3's `round` on one
exact value (Python rounds the nearest binary float; on the exact halves and
clear cases relevant here the two agree). -/
def rhe (q : ℚ) : ℤ :=
  if q - ⌊q⌋ < 1/2 then ⌊q⌋
  else if 1/2 < q - ⌊q⌋ then ⌊q⌋ + 1
  else if ⌊q⌋ % 2 = 0 then ⌊q⌋ else ⌊q⌋ + 1

/-- Python's `round(value, p)`: scale by `10^p`, round half to even,
scale back. -/
def roundTo (q : ℚ) (p : ℕ) : ℚ :=
  (rhe (q * 10 ^ p) : ℚ) / 10 ^ p

/-- Embeds `DataLogger._round_value` (data_logger.py:213-220). -/
def round_value (value : ℚ) (sensor_type : SensorType) : ℚ :=
  roundTo value (round_precision sensor_type)

/-- One call of `DataLogger._generate_value` (data_logger.py:164-180) for a
sensor whose stored last value is `last`, with the delta `change` drawn by
`random.uniform(-change_range, change_range)` made an explicit parameter:
candidate `last + change` clamped to `[min_val, max_val]`
(`max(min_val, min(max_val, last + change))`), then rounded per type.
The returned value is also the new stored last value. -/
def generate_value_step (sensor_type : SensorType)
    (min_warning max_warning min_critical max_critical : Option ℚ)
    (last change : ℚ) : ℚ :=
  let r := get_value_ranges sensor_type min_warning max_warning min_critical max_critical
  let min_val := r.2.1
  let max_val := r.2.2
  round_value (pymax min_val (pymin max_val (last + change))) sensor_type

/-- Models the text Python's f-string produces for a float that holds an exact
decimal value: an integral value prints with a trailing `.0` (`30.0`), and a
non-integral decimal prints its shortest exact decimal expansion (`29.95`).
Only values with a decimal denominator arise in this pipeline; others fall
back to the raw rational rendering. -/
def pyFloatRepr (q : ℚ) : String :=
  if q.den = 1 then toString q.num ++ ".0"
  else
    match (List.range 30).find? (fun k => (q * (10 : ℚ) ^ (k + 1)).den = 1) with
    | some k =>
      let p := k + 1
      let m := (q * (10 : ℚ) ^ p).num
      let a := m.natAbs
      let ip := a / 10 ^ p
      let fstr := toString (a % 10 ^ p)
      let frac := String.mk (List.replicate (p - fstr.length) '0') ++ fstr
      (if m < 0 then "-" else "") ++ toString ip ++ "." ++ frac
    | none => toString q

/-- Embeds `DataLogger._generate_alert_description` (data_logger.py:234-257).
The `severity` argument is accepted and unused, as in the source; the
High/Low split compares against `SAMPLING_CONFIG[type]["normal_range"][1]`
(temperature 25, humidity 50, light 500, database_setup.py:17-88). -/
def generate_alert_description (sensor_type : SensorType) (value : ℚ)
    (severity : String) : String :=
  match sensor_type with
  | .temperature =>
    if 25 < value then "High temperature: " ++ pyFloatRepr value ++ "°C"
    else "Low temperature: " ++ pyFloatRepr value ++ "°C"
  | .humidity =>
    if 50 < value then "High humidity: " ++ pyFloatRepr value ++ "%"
    else "Low humidity: " ++ pyFloatRepr value ++ "%"
  | .air_quality => "High CO2 level: " ++ pyFloatRepr value ++ " ppm"
  | .smoke => "High smoke level: " ++ pyFloatRepr value ++ " ppm"
  | .gas => "High gas level: " ++ pyFloatRepr value ++ " ppm"
  | .motion => "Unauthorized motion detected"
  | .sound => "High sound level: " ++ pyFloatRepr value ++ " dB"
  | .tampering => "Abnormal vibration: " ++ pyFloatRepr value ++ " g/deg/s"
  | .water_leak => "Water leak detected"
  | .light =>
    if 500 < value then "High light level: " ++ pyFloatRepr value ++ " lux"
    else "Low light level: " ++ pyFloatRepr value ++ " lux"
  | .other _ => "Abnormal reading: " ++ pyFloatRepr value

/-- A queued reading, the dict put on `data_queue` by `_sensor_data_loop`
(data_logger.py:93-98). `status` is the integer code from
`_determine_status`. -/
structure Reading where
  sensor_id : ℕ
  value : ℚ
  status : ℕ
  timestamp : String
deriving DecidableEq, Repr

/-- A row of the `sensors` table (database_setup.py:107-119). -/
structure SensorRow where
  id : ℕ
  type : SensorType
  last_reading : Option ℚ
  status : ℕ
  last_reading_time : Option String
  min_warning : Option ℚ
  max_warning : Option ℚ
  min_critical : Option ℚ
  max_critical : Option ℚ
deriving DecidableEq, Repr

/-- A row of the `measurements` table (database_setup.py:122-131). -/
structure MeasurementRow where
  sensor_id : ℕ
  timestamp : String
  value : ℚ
  status : ℕ
deriving DecidableEq, Repr

/-- A row of the `alerts` table (database_setup.py:134-144). -/
structure AlertRow where
  sensor_id : ℕ
  timestamp : String
  value : ℚ
  severity : String
  description : String
deriving DecidableEq, Repr

/-- The persisted state: the three SQLite tables as lists (inserts append). -/
structure DB where
  sensors : List SensorRow
  measurements : List MeasurementRow
  alerts : List AlertRow
deriving DecidableEq, Repr

/-- The `UPDATE sensors SET last_reading, status, last_reading_time WHERE id`
statement applied to one row (data_logger.py:119-126). -/
def update_sensor_row (data : Reading) (row : SensorRow) : SensorRow :=
  if row.id = data.sensor_id then
    { row with
        last_reading := some data.value
        status := data.status
        last_reading_time := some data.timestamp }
  else row

/-- One successful iteration body of `DataLogger._database_writer_loop`
(data_logger.py:114-156) on a dequeued reading.  All statements run in one
SQLite transaction with a single `commit` at the end, so they take effect
together.  When `status ≠ 0` the writer fetches the sensor's type
(`fetchone()[0]`); if the sensor row is absent that raises before the commit,
the transaction is never committed, and nothing is persisted — modelled by
returning the database unchanged.  When `status = 0` no fetch occurs and the
update/insert commit even for an unknown sensor_id. -/
def write_reading (db : DB) (data : Reading) : DB :=
  if data.status ≠ 0 then
    match db.sensors.find? (fun row => row.id = data.sensor_id) with
    | none => db
    | some row =>
      let severity := if data.status = 2 then "critical" else "warning"
      { sensors := db.sensors.map (update_sensor_row data)
        measurements := db.measurements ++
          [⟨data.sensor_id, data.timestamp, data.value, data.status⟩]
        alerts := db.alerts ++
          [⟨data.sensor_id, data.timestamp, data.value, severity,
            generate_alert_description row.type data.value severity⟩] }
  else
    { sensors := db.sensors.map (update_sensor_row data)
      measurements := db.measurements ++
        [⟨data.sensor_id, data.timestamp, data.value, data.status⟩]
      alerts := db.alerts }

/-- One observable event of the writer loop: the 1-second `queue.get` timeout
(`queue.Empty` → `continue`), or the dequeue of a reading together with
whether its database transaction succeeds (`ok = false` models an exception
inside the `with self.db_lock` block: rollback, log, `time.sleep(1)`,
continue). -/
inductive WriterEvent where
  | timeout
  | recv (data : Reading) (ok : Bool)
deriving DecidableEq, Repr

/-- The writer state: the persisted database plus the elapsed time consumed
by `queue.get` timeouts and failure backoffs. -/
structure WriterState where
  db : DB
  elapsed : ℚ
deriving DecidableEq, Repr

/-- One iteration of `_database_writer_loop` (data_logger.py:110-162) under
one event: a `queue.Empty` timeout burns up to 1 time unit and continues; a
successfully persisted reading applies `write_reading`; a failed transaction
leaves the database unchanged (the reading is dropped, not requeued) and
sleeps the fixed 1-unit backoff. -/
def writer_iter (s : WriterState) (e : WriterEvent) : WriterState :=
  match e with
  | .timeout => { s with elapsed := s.elapsed + 1 }
  | .recv data true => { s with db := write_reading s.db data }
  | .recv data false => { s with elapsed := s.elapsed + 1 }

/-- The writer loop over a finite trace of events. -/
def writer_run (s : WriterState) (es : List WriterEvent) : WriterState :=
  es.foldl writer_iter s

/-- The nominal `interval` field of `SAMPLING_CONFIG`
(database_setup.py:17-88); unknown types have no entry. -/
def sampling_config_interval : SensorType → Option ℚ
  | .temperature => some 1
  | .humidity => some 1
  | .air_quality => some 1
  | .smoke => some 1
  | .gas => some 1
  | .motion => some (1/10)
  | .sound => some (1/20)
  | .tampering => some (1/100)
  | .water_leak => some 1
  | .light => some 1
  | .other _ => none

/-- The `self.sampling_intervals` dict built in `DataLogger.__init__`
(data_logger.py:29-32): each configured interval times 2. -/
def sampling_intervals (sensor_type : SensorType) : Option ℚ :=
  (sampling_config_interval sensor_type).map (fun i => i * 2)

/-- The sleep used by `_sensor_data_loop` each iteration
(data_logger.py:101-102): `self.sampling_intervals.get(sensor_type, 1)`. -/
def loop_sleep_interval (sensor_type : SensorType) : ℚ :=
  (sampling_intervals sensor_type).getD 1

/-- One row of the `SELECT id, type, min_warning, max_warning, min_critical,
max_critical FROM sensors` query in `_start_sensor_threads`
(data_logger.py:57-63). -/
structure SensorConfig where
  id : ℕ
  type : SensorType
  min_warning : Option ℚ
  max_warning : Option ℚ
  min_critical : Option ℚ
  max_critical : Option ℚ
deriving DecidableEq, Repr

/-- The lifecycle-relevant fields of a `DataLogger`: the `is_running` flag,
the keys of `self.threads` (one per launched sensor thread), and whether the
database writer thread was started. -/
structure LoggerState where
  is_running : Bool
  threads : List ℕ
  db_thread_started : Bool
deriving DecidableEq, Repr

/-- Embeds `DataLogger.stop_logging` (data_logger.py:259-271) at the state
level: clears `is_running` (the joins are modelled by the transition system
below). -/
def stop_logging (s : LoggerState) : LoggerState :=
  { s with is_running := false }

/-- Embeds `DataLogger._start_sensor_threads` (data_logger.py:49-78).  The
sensors query either returns a (possibly empty) list of configs — one thread
is launched and recorded per row, with no check that the list is nonempty —
or raises `sqlite3.Error`, in which case the handler calls `stop_logging`. -/
def start_sensor_threads (query : Except String (List SensorConfig))
    (s : LoggerState) : LoggerState :=
  match query with
  | .ok sensors => { s with threads := sensors.map SensorConfig.id }
  | .error _ => stop_logging s

/-- Embeds `DataLogger.start_logging` (data_logger.py:34-47): no-op when
already running; otherwise sets `is_running`, starts the writer thread, and
runs `_start_sensor_threads`. -/
def start_logging (query : Except String (List SensorConfig))
    (s : LoggerState) : LoggerState :=
  if s.is_running then s
  else start_sensor_threads query
    { s with is_running := true, db_thread_started := true }

/-- Thread status for the shutdown model: a Python thread is `running` until
its target function returns, then `stopped`. -/
inductive WState where
  | running
  | stopped
deriving DecidableEq, Repr

/-- The concurrent system after `start_logging`: the shared `is_running`
flag, one sensor-worker thread per sensor, the writer thread, and whether
`stop_logging` has returned (it joins every thread before returning,
data_logger.py:259-271). -/
structure Sys where
  flag : Bool
  workers : List WState
  writer : WState
  stop_returned : Bool
deriving DecidableEq, Repr

/-- Observable labels: `produce i` is worker `i` queueing a reading
(one `_sensor_data_loop` iteration), `persist` is the writer committing a
reading, `tau` is internal (flag flip, a thread exiting, stop returning). -/
inductive Label where
  | tau
  | produce (i : ℕ)
  | persist
deriving DecidableEq, Repr

/-- Interleaving semantics of the threaded code (data_logger.py:80-162,
259-271): a worker iterates only while it sees `is_running` true and exits
its `while` loop once the flag is false; the writer likewise; `stop_logging`
flips the flag and returns only after `join` has seen the writer and every
worker finish. -/
inductive Step : Sys → Label → Sys → Prop where
  | signal_stop (s : Sys) :
      Step s .tau { s with flag := false }
  | worker_iterate (s : Sys) (i : ℕ) :
      s.flag = true → s.workers.get? i = some .running →
      Step s (.produce i) s
  | worker_exit (s : Sys) (i : ℕ) :
      s.flag = false → s.workers.get? i = some .running →
      Step s .tau { s with workers := s.workers.set i .stopped }
  | writer_persist (s : Sys) :
      s.writer = .running →
      Step s .persist s
  | writer_exit (s : Sys) :
      s.flag = false → s.writer = .running →
      Step s .tau { s with writer := .stopped }
  | stop_return (s : Sys) :
      s.flag = false → (∀ w ∈ s.workers, w = .stopped) →
      s.writer = .stopped →
      Step s .tau { s with stop_returned := true }

/-- Reflexive-transitive reachability over `Step`. -/
inductive Reaches : Sys → Sys → Prop where
  | refl (s : Sys) : Reaches s s
  | tail {a b c : Sys} {l : Label} : Reaches a b → Step b l c → Reaches a c

/-- The system state right after `start_logging` launched `n` workers and
the writer. -/
def started (n : ℕ) : Sys :=
  { flag := true
    workers := List.replicate n .running
    writer := .running
    stop_returned := false }

/-- The rational `q` is representable at `p` decimal places: `q * 10^p` is an
integer.
All fallback bounds of `_get_value_ranges` and all integer thresholds are
grid-aligned at their type's precision. -/
def gridAligned (q : ℚ) (p : ℕ) : Prop :=
  ∃ a : ℤ, q * 10 ^ p = (a : ℚ)

section RoundingLemmas

theorem rhe_eq_floor {q : ℚ} (h : q - ⌊q⌋ < 1/2) : rhe q = ⌊q⌋ := by
  unfold rhe
  rw [if_pos h]

theorem floor_le_rhe (q : ℚ) : ⌊q⌋ ≤ rhe q := by
  unfold rhe
  split
  · exact le_refl _
  · split
    · exact Int.le_add_one (le_refl _)
    · split
      · exact le_refl _
      · exact Int.le_add_one (le_refl _)

theorem rhe_le_ceil (q : ℚ) : rhe q ≤ ⌈q⌉ := by
  have hfc : (⌊q⌋ : ℚ) ≤ q := Int.floor_le q
  have hqc : q ≤ (⌈q⌉ : ℚ) := Int.le_ceil q
  have base : ⌊q⌋ ≤ ⌈q⌉ := Int.floor_le_ceil q
  have step : ∀ hlt : (1:ℚ)/2 ≤ q - ⌊q⌋, ⌊q⌋ + 1 ≤ ⌈q⌉ := by
    intro hlt
    have hq : (⌊q⌋ : ℚ) < q := by linarith
    have : (⌊q⌋ : ℚ) < (⌈q⌉ : ℚ) := lt_of_lt_of_le hq hqc
    exact_mod_cast Int.add_one_le_iff.mpr (by exact_mod_cast this)
  unfold rhe
  split
  · exact base
  · next h1 =>
    split
    · next h2 => exact step (le_of_lt h2)
    · next h2 =>
      have he : q - ⌊q⌋ = 1/2 := le_antisymm (not_lt.mp h2) (not_lt.mp h1)
      split
      · exact base
      · exact step (le_of_eq he.symm)

theorem le_rhe_of_le {m : ℤ} {q : ℚ} (h : (m : ℚ) ≤ q) : m ≤ rhe q :=
  le_trans (Int.le_floor.mpr h) (floor_le_rhe q)

theorem rhe_le_of_le {M : ℤ} {q : ℚ} (h : q ≤ (M : ℚ)) : rhe q ≤ M :=
  le_trans (rhe_le_ceil q) (Int.ceil_le.mpr h)

theorem rhe_intCast (n : ℤ) : rhe ((n : ℚ)) = n := by
  have : ((n : ℚ)) - ⌊((n : ℚ))⌋ < 1/2 := by
    rw [Int.floor_intCast]
    norm_num
  rw [rhe_eq_floor this, Int.floor_intCast]

theorem pymin_eq_min (a b : ℚ) : pymin a b = min a b := by
  unfold pymin
  rcases lt_or_le b a with h | h
  · rw [if_pos h]
    exact (min_eq_right (le_of_lt h)).symm
  · rw [if_neg (not_lt.mpr h)]
    exact (min_eq_left h).symm

theorem pymax_eq_max (a b : ℚ) : pymax a b = max a b := by
  unfold pymax
  rcases lt_or_le a b with h | h
  · rw [if_pos h]
    exact (max_eq_right (le_of_lt h)).symm
  · rw [if_neg (not_lt.mpr h)]
    exact (max_eq_left h).symm

/-- The clamp-then-round step stays within grid-aligned bounds. -/
theorem roundTo_mem_of_grid {lo hi q : ℚ} {p : ℕ}
    (hlo : gridAligned lo p) (hhi : gridAligned hi p)
    (h1 : lo ≤ q) (h2 : q ≤ hi) :
    lo ≤ roundTo q p ∧ roundTo q p ≤ hi := by
  obtain ⟨a, ha⟩ := hlo
  obtain ⟨b, hb⟩ := hhi
  have hp : (0:ℚ) < 10 ^ p := by positivity
  have hqa : (a : ℚ) ≤ q * 10 ^ p := by
    rw [← ha]
    exact mul_le_mul_of_nonneg_right h1 (le_of_lt hp)
  have hqb : q * 10 ^ p ≤ (b : ℚ) := by
    rw [← hb]
    exact mul_le_mul_of_nonneg_right h2 (le_of_lt hp)
  have h1' : a ≤ rhe (q * 10 ^ p) := le_rhe_of_le hqa
  have h2' : rhe (q * 10 ^ p) ≤ b := rhe_le_of_le hqb
  constructor
  · have hlo' : lo = (a : ℚ) / 10 ^ p := (eq_div_iff (ne_of_gt hp)).mpr ha
    rw [hlo', roundTo]
    apply div_le_div_of_nonneg_right _ hp.le
    exact_mod_cast h1'
  · have hhi' : hi = (b : ℚ) / 10 ^ p := (eq_div_iff (ne_of_gt hp)).mpr hb
    rw [hhi', roundTo]
    apply div_le_div_of_nonneg_right _ hp.le
    exact_mod_cast h2'

/-- Evaluate `rhe` at a concrete rational whose fractional part is below
one half. -/
theorem rhe_concrete {q : ℚ} {z : ℤ} (h1 : (z : ℚ) ≤ q) (h2 : q - (z : ℚ) < 1/2) :
    rhe q = z := by
  have hf : ⌊q⌋ = z := Int.floor_eq_iff.mpr ⟨h1, by linarith⟩
  rw [rhe_eq_floor (by rw [hf]; exact h2), hf]

end RoundingLemmas

section TripLemmas

theorem leTrips_false_iff (v : ℚ) (o : Option ℚ) :
    leTrips v o = false ↔ ∀ t, o = some t → t < v := by
  cases o <;> simp [leTrips]

theorem geTrips_false_iff (v : ℚ) (o : Option ℚ) :
    geTrips v o = false ↔ ∀ t, o = some t → v < t := by
  cases o <;> simp [geTrips]

theorem leTrips_true_of (v t : ℚ) (o : Option ℚ) (ho : o = some t) (h : v ≤ t) :
    leTrips v o = true := by
  subst ho
  simpa [leTrips] using h

theorem geTrips_true_of (v t : ℚ) (o : Option ℚ) (ho : o = some t) (h : t ≤ v) :
    geTrips v o = true := by
  subst ho
  simpa [geTrips] using h

end TripLemmas

/-- C2: `_determine_status` evaluates in the exact order min_critical,
max_critical, min_warning, max_warning with boundary-inclusive `≤`/`≥`
comparisons, skips absent thresholds, prefers Critical over Warning when a
value violates both, and always returns one of the codes 0/1/2
(Normal/Warning/Critical). -/
theorem determine_status_spec (v : ℚ) (mw Mw mc Mc : Option ℚ) :
    (determine_status v mw Mw mc Mc = 0 ∨ determine_status v mw Mw mc Mc = 1 ∨
      determine_status v mw Mw mc Mc = 2) ∧
    (∀ t, mc = some t → v ≤ t → determine_status v mw Mw mc Mc = 2) ∧
    ((∀ t, mc = some t → t < v) →
      ∀ t, Mc = some t → t ≤ v → determine_status v mw Mw mc Mc = 2) ∧
    ((∀ t, mc = some t → t < v) → (∀ t, Mc = some t → v < t) →
      ∀ t, mw = some t → v ≤ t → determine_status v mw Mw mc Mc = 1) ∧
    ((∀ t, mc = some t → t < v) → (∀ t, Mc = some t → v < t) →
      (∀ t, mw = some t → t < v) →
      ∀ t, Mw = some t → t ≤ v → determine_status v mw Mw mc Mc = 1) ∧
    ((∀ t, mc = some t → t < v) → (∀ t, Mc = some t → v < t) →
      (∀ t, mw = some t → t < v) → (∀ t, Mw = some t → v < t) →
      determine_status v mw Mw mc Mc = 0) := by
  refine ⟨?_, ?_, ?_, ?_, ?_, ?_⟩
  · unfold determine_status
    split
    · right; right; rfl
    · split
      · right; right; rfl
      · split
        · right; left; rfl
        · split
          · right; left; rfl
          · left; rfl
  · intro t ht hv
    unfold determine_status
    rw [leTrips_true_of v t mc ht hv]
    rfl
  · intro hnc t ht hv
    unfold determine_status
    rw [(leTrips_false_iff v mc).mpr hnc, geTrips_true_of v t Mc ht hv]
    rfl
  · intro hnc hNC t ht hv
    unfold determine_status
    rw [(leTrips_false_iff v mc).mpr hnc, (geTrips_false_iff v Mc).mpr hNC,
      leTrips_true_of v t mw ht hv]
    rfl
  · intro hnc hNC hnw t ht hv
    unfold determine_status
    rw [(leTrips_false_iff v mc).mpr hnc, (geTrips_false_iff v Mc).mpr hNC,
      (leTrips_false_iff v mw).mpr hnw, geTrips_true_of v t Mw ht hv]
    rfl
  · intro hnc hNC hnw hNW
    unfold determine_status
    rw [(leTrips_false_iff v mc).mpr hnc, (geTrips_false_iff v Mc).mpr hNC,
      (leTrips_false_iff v mw).mpr hnw, (geTrips_false_iff v Mw).mpr hNW]
    rfl

/-- Witness for C2 at a concrete input: with thresholds 20/30/15/35 the value
30 sits on the max-warning boundary and is classified Warning. -/
theorem determine_status_spec_witness :
    determine_status 30 (some 20) (some 30) (some 15) (some 35) = 1 := by
  refine (determine_status_spec 30 (some 20) (some 30) (some 15) (some 35)).2.2.2.2.1
    ?_ ?_ ?_ 30 rfl (le_refl _)
  · intro t ht
    injection ht with h
    rw [← h]
    norm_num
  · intro t ht
    injection ht with h
    rw [← h]
    norm_num
  · intro t ht
    injection ht with h
    rw [← h]
    norm_num

/-- C10: the standalone `ErrorManager.check_value` threshold chain agrees
with the pipeline classifier `_determine_status`: one critical alert iff
status Critical (2), one warning alert iff status Warning (1), no alert iff
status Normal (0). -/
theorem check_value_agrees_with_determine_status (v : ℚ) (mw Mw mc Mc : Option ℚ) :
    (check_value_severities mw Mw mc Mc v = ["critical"] ↔
      determine_status v mw Mw mc Mc = 2) ∧
    (check_value_severities mw Mw mc Mc v = ["warning"] ↔
      determine_status v mw Mw mc Mc = 1) ∧
    (check_value_severities mw Mw mc Mc v = [] ↔
      determine_status v mw Mw mc Mc = 0) := by
  by_cases h1 : leTrips v mc <;> by_cases h2 : geTrips v Mc <;>
    by_cases h3 : leTrips v mw <;> by_cases h4 : geTrips v Mw <;>
    simp [check_value_severities, determine_status, h1, h2, h3, h4]

/-- Witness for C10 at a concrete input: value 30 with thresholds 20/30/15/35
is status Warning and yields exactly one warning alert. -/
theorem check_value_agrees_with_determine_status_witness :
    check_value_severities (some 20) (some 30) (some 15) (some 35) 30 =
      ["warning"] :=
  (check_value_agrees_with_determine_status 30 (some 20) (some 30) (some 15)
    (some 35)).2.1.mpr (by decide)

/-- C9: in `_get_value_ranges` a configured warning threshold equal to 0 is
falsy in Python's `or` and therefore treated as absent, and for the smoke,
gas and water_leak types the lower clamp bound is the constant 0 no matter
what `min_warning` is configured. -/
theorem zero_threshold_treated_as_absent (ty : SensorType)
    (mw Mw mc Mc : Option ℚ) :
    get_value_ranges ty (some 0) (some 0) mc Mc =
      get_value_ranges ty none none mc Mc ∧
    (get_value_ranges .smoke mw Mw mc Mc).2.1 = 0 ∧
    (get_value_ranges .gas mw Mw mc Mc).2.1 = 0 ∧
    (get_value_ranges .water_leak mw Mw mc Mc).2.1 = 0 := by
  refine ⟨?_, rfl, rfl, rfl⟩
  cases ty <;> simp [get_value_ranges, pyOr]

/-- C7: for every sensor type with a configured nominal interval in
`SAMPLING_CONFIG`, the per-iteration worker sleep is exactly twice that
nominal interval. -/
theorem worker_sleep_is_double_nominal (ty : SensorType) (i : ℚ)
    (h : sampling_config_interval ty = some i) :
    loop_sleep_interval ty = 2 * i := by
  unfold loop_sleep_interval sampling_intervals
  rw [h]
  simp [Option.getD, mul_comm]

/-- Witness for C7 at the temperature type: nominal interval 1, sleep 2. -/
theorem worker_sleep_is_double_nominal_witness :
    sampling_config_interval .temperature = some 1 ∧
    loop_sleep_interval .temperature = 2 * 1 :=
  ⟨rfl, worker_sleep_is_double_nominal .temperature 1 rfl⟩

/-- Counterexample to C6: starting a fresh logger when the sensors query
returns the empty list does not abort — `is_running` ends up true, the writer
thread is started, and zero sensor workers exist.  `start_logging` never
checks that the sensor list is nonempty. -/
theorem start_with_no_sensors_does_not_abort :
    (start_logging (.ok []) ⟨false, [], false⟩).is_running = true ∧
    (start_logging (.ok []) ⟨false, [], false⟩).threads = [] ∧
    (start_logging (.ok []) ⟨false, [], false⟩).db_thread_started = true := by
  refine ⟨rfl, rfl, rfl⟩

/-- C6 (amended): when no SensorConfigs exist, `start_logging` completes
normally with `is_running` true, the writer thread started, and zero sensor
workers; it aborts (via `stop_logging`) only when the configuration query
itself raises a database error. -/
theorem start_with_no_sensors_amended (e : String) :
    start_logging (.ok []) ⟨false, [], false⟩ =
      ⟨true, [], true⟩ ∧
    (start_logging (.error e) ⟨false, [], false⟩).is_running = false := by
  refine ⟨rfl, rfl⟩

/-- C5: the concrete temperature scenario — thresholds 20/30/15/35, last
value 34.8, delta +0.5: the candidate 35.3 is clamped to the effective max 30
(the warning threshold), rounded to 30.0, classified Warning (30 ≥
max_warning), and its alert description is "High temperature: 30.0°C". -/
theorem temperature_scenario :
    generate_value_step .temperature (some 20) (some 30) (some 15) (some 35)
      (34.8) (0.5) = 30 ∧
    determine_status 30 (some 20) (some 30) (some 15) (some 35) = 1 ∧
    generate_alert_description .temperature 30 "warning" =
      "High temperature: 30.0°C" := by
  refine ⟨?_, by decide, by decide⟩
  have hclamp :
      pymax (pyOr (some 20) 15) (pymin (pyOr (some 30) 35) ((34.8 : ℚ) + 0.5)) = 30 := by
    norm_num [pyOr, pymin, pymax]
  have hrhe : rhe ((30 : ℚ) * 10 ^ (1 : ℕ)) = 300 := by
    apply rhe_concrete <;> norm_num
  show round_value
      (pymax (pyOr (some 20) 15) (pymin (pyOr (some 30) 35) ((34.8 : ℚ) + 0.5)))
      .temperature = 30
  rw [hclamp]
  unfold round_value roundTo round_precision
  rw [hrhe]
  norm_num

/-- Counterexample to C1: for a temperature sensor with
`min_warning = 20.04` (present and nonzero, so it is the effective min
bound), last value 20 and delta 0 (within `[-0.5, 0.5]`), the candidate 20 is
clamped up to 20.04 but then rounded to one decimal, returning 20.0 — strictly
below the effective min bound.  The returned value escapes
`[effectiveMin, effectiveMax]`. -/
theorem generate_value_escapes_bounds :
    (get_value_ranges .temperature (some (501/25)) (some 30) (some 15) (some 35)).2.1
      = 501/25 ∧
    (get_value_ranges .temperature (some (501/25)) (some 30) (some 15) (some 35)).1
      = 1/2 ∧
    generate_value_step .temperature (some (501/25)) (some 30) (some 15) (some 35)
      20 0 = 20 ∧
    ¬((501/25 : ℚ) ≤
      generate_value_step .temperature (some (501/25)) (some 30) (some 15) (some 35)
        20 0) := by
  have hval :
      generate_value_step .temperature (some (501/25)) (some 30) (some 15) (some 35)
        20 0 = 20 := by
    have hclamp :
        pymax (pyOr (some (501/25)) 15) (pymin (pyOr (some 30) 35) ((20 : ℚ) + 0))
          = 501/25 := by
      norm_num [pyOr, pymin, pymax]
    have hrhe : rhe ((501/25 : ℚ) * 10 ^ (1 : ℕ)) = 200 := by
      apply rhe_concrete <;> norm_num
    show round_value
        (pymax (pyOr (some (501/25)) 15) (pymin (pyOr (some 30) 35) ((20 : ℚ) + 0)))
        .temperature = 20
    rw [hclamp]
    unfold round_value roundTo round_precision
    rw [hrhe]
    norm_num
  refine ⟨by norm_num [get_value_ranges, pyOr], rfl, hval, ?_⟩
  rw [hval]
  norm_num

/-- C1 (amended): whenever the effective bounds chosen by
`_get_value_ranges` are ordered and each is representable at the type's
rounding precision (which holds for every fallback bound and every integer
threshold), the value returned by one `_generate_value` step — previous value
plus an arbitrary delta, clamped, then rounded — lies within
`[effectiveMin, effectiveMax]`; for non-grid thresholds rounding can leave the
interval by less than half a rounding step (see the counterexample). -/
theorem generate_value_within_grid_bounds (ty : SensorType)
    (mw Mw mc Mc : Option ℚ) (last change : ℚ)
    (horder : (get_value_ranges ty mw Mw mc Mc).2.1 ≤
      (get_value_ranges ty mw Mw mc Mc).2.2)
    (hlo : gridAligned (get_value_ranges ty mw Mw mc Mc).2.1 (round_precision ty))
    (hhi : gridAligned (get_value_ranges ty mw Mw mc Mc).2.2 (round_precision ty)) :
    (get_value_ranges ty mw Mw mc Mc).2.1 ≤
      generate_value_step ty mw Mw mc Mc last change ∧
    generate_value_step ty mw Mw mc Mc last change ≤
      (get_value_ranges ty mw Mw mc Mc).2.2 := by
  have h1 : (get_value_ranges ty mw Mw mc Mc).2.1 ≤
      pymax (get_value_ranges ty mw Mw mc Mc).2.1
        (pymin (get_value_ranges ty mw Mw mc Mc).2.2 (last + change)) := by
    rw [pymax_eq_max]
    exact le_max_left _ _
  have h2 : pymax (get_value_ranges ty mw Mw mc Mc).2.1
        (pymin (get_value_ranges ty mw Mw mc Mc).2.2 (last + change)) ≤
      (get_value_ranges ty mw Mw mc Mc).2.2 := by
    rw [pymax_eq_max, pymin_eq_min]
    exact max_le horder (min_le_left _ _)
  exact roundTo_mem_of_grid hlo hhi h1 h2

/-- Witness for the amended C1 at a concrete input: temperature with integer
thresholds 20/30 (grid-aligned at one decimal), last value 34.8, delta 0.5:
the result stays within [20, 30]. -/
theorem generate_value_within_grid_bounds_witness :
    (get_value_ranges .temperature (some 20) (some 30) (some 15) (some 35)).2.1 ≤
      generate_value_step .temperature (some 20) (some 30) (some 15) (some 35)
        (34.8) (0.5) ∧
    generate_value_step .temperature (some 20) (some 30) (some 15) (some 35)
      (34.8) (0.5) ≤
      (get_value_ranges .temperature (some 20) (some 30) (some 15) (some 35)).2.2 :=
  generate_value_within_grid_bounds .temperature (some 20) (some 30) (some 15)
    (some 35) (34.8) (0.5)
    (by norm_num [get_value_ranges, pyOr])
    ⟨200, by norm_num [get_value_ranges, pyOr, round_precision]⟩
    ⟨300, by norm_num [get_value_ranges, pyOr, round_precision]⟩

/-- C3: for a reading processed by the writer whose sensor row exists, a
non-Normal status appends exactly one alert alongside the one appended
measurement, with the same sensor_id, timestamp and value, severity
"critical" for status 2 (Critical) and "warning" for status 1 (Warning);
a Normal status appends no alert. -/
theorem writer_alert_correspondence (db : DB) (data : Reading) (row : SensorRow)
    (hrow : db.sensors.find? (fun r => r.id = data.sensor_id) = some row) :
    (data.status = 2 →
      (write_reading db data).measurements = db.measurements ++
        [⟨data.sensor_id, data.timestamp, data.value, 2⟩] ∧
      (write_reading db data).alerts = db.alerts ++
        [⟨data.sensor_id, data.timestamp, data.value, "critical",
          generate_alert_description row.type data.value "critical"⟩]) ∧
    (data.status = 1 →
      (write_reading db data).measurements = db.measurements ++
        [⟨data.sensor_id, data.timestamp, data.value, 1⟩] ∧
      (write_reading db data).alerts = db.alerts ++
        [⟨data.sensor_id, data.timestamp, data.value, "warning",
          generate_alert_description row.type data.value "warning"⟩]) ∧
    (data.status = 0 →
      (write_reading db data).measurements = db.measurements ++
        [⟨data.sensor_id, data.timestamp, data.value, 0⟩] ∧
      (write_reading db data).alerts = db.alerts) := by
  refine ⟨?_, ?_, ?_⟩
  · intro h2
    unfold write_reading
    rw [if_pos (by rw [h2]; exact two_ne_zero), hrow]
    rw [h2]
    exact ⟨rfl, rfl⟩
  · intro h1
    unfold write_reading
    rw [if_pos (by rw [h1]; exact one_ne_zero), hrow]
    rw [h1]
    exact ⟨rfl, rfl⟩
  · intro h0
    unfold write_reading
    rw [if_neg (by rw [h0]; exact not_ne_iff.mpr rfl)]
    rw [h0]
    exact ⟨rfl, rfl⟩

/-- Witness for C3 at a concrete input: one temperature sensor, one Warning
reading; exactly one matching warning alert is appended. -/
theorem writer_alert_correspondence_witness :
    (write_reading
        ⟨[⟨1, .temperature, none, 0, none, some 20, some 30, some 15, some 35⟩],
          [], []⟩
        ⟨1, 30, 1, "ts"⟩).measurements = [⟨1, "ts", 30, 1⟩] ∧
    (write_reading
        ⟨[⟨1, .temperature, none, 0, none, some 20, some 30, some 15, some 35⟩],
          [], []⟩
        ⟨1, 30, 1, "ts"⟩).alerts =
      [⟨1, "ts", 30, "warning",
        generate_alert_description SensorType.temperature 30 "warning"⟩] := by
  have h := (writer_alert_correspondence
    ⟨[⟨1, .temperature, none, 0, none, some 20, some 30, some 15, some 35⟩], [], []⟩
    ⟨1, 30, 1, "ts"⟩
    ⟨1, .temperature, none, 0, none, some 20, some 30, some 15, some 35⟩
    rfl).2.1 rfl
  simpa using h

/-- C4: the three persisted effects of one reading commit together or not at
all (the database after `write_reading` is either unchanged, or carries the
sensor upsert, the appended measurement, and — exactly when the status is
non-Normal — one appended alert with matching sensor_id/timestamp/value);
a failed transaction drops the reading, costs the fixed 1-unit backoff, and
the loop then processes the remaining events exactly as it would have,
as does a successful one. -/
theorem writer_atomic_and_drops_failures (s : WriterState) (data : Reading)
    (es : List WriterEvent) :
    writer_run s (WriterEvent.recv data false :: es) =
      writer_run { s with elapsed := s.elapsed + 1 } es ∧
    writer_run s (WriterEvent.recv data true :: es) =
      writer_run { s with db := write_reading s.db data } es ∧
    (write_reading s.db data = s.db ∨
      ((write_reading s.db data).sensors =
          s.db.sensors.map (update_sensor_row data) ∧
        (write_reading s.db data).measurements = s.db.measurements ++
          [⟨data.sensor_id, data.timestamp, data.value, data.status⟩] ∧
        (data.status = 0 → (write_reading s.db data).alerts = s.db.alerts) ∧
        (data.status ≠ 0 → ∃ a : AlertRow,
          a.sensor_id = data.sensor_id ∧ a.timestamp = data.timestamp ∧
          a.value = data.value ∧
          (write_reading s.db data).alerts = s.db.alerts ++ [a]))) := by
  refine ⟨rfl, rfl, ?_⟩
  by_cases h0 : data.status = 0
  · right
    unfold write_reading
    rw [if_neg (not_ne_iff.mpr h0)]
    exact ⟨rfl, by rw [h0], fun _ => rfl, fun hne => absurd h0 hne⟩
  · unfold write_reading
    rw [if_pos h0]
    cases hfind : s.db.sensors.find? (fun r => r.id = data.sensor_id) with
    | none => exact Or.inl rfl
    | some row =>
      right
      refine ⟨rfl, rfl, fun he => absurd he h0, fun _ => ?_⟩
      exact ⟨_, rfl, rfl, rfl, rfl⟩

/-- Witness for C4 at a concrete input: a failed transaction on an empty
database drops the reading, burns backoff 1, and the run continues. -/
theorem writer_atomic_and_drops_failures_witness :
    writer_run ⟨⟨[], [], []⟩, 0⟩ [WriterEvent.recv ⟨1, 30, 1, "ts"⟩ false] =
      writer_run ⟨⟨[], [], []⟩, 0 + 1⟩ [] :=
  (writer_atomic_and_drops_failures ⟨⟨[], [], []⟩, 0⟩ ⟨1, 30, 1, "ts"⟩ []).1

/-- Invariant along any execution from a started system: once `stop_logging`
has returned, the flag is down and every thread has finished. -/
theorem reaches_stop_invariant {n : ℕ} {s : Sys}
    (h : Reaches (started n) s) :
    s.stop_returned = true →
      s.flag = false ∧ (∀ w ∈ s.workers, w = .stopped) ∧ s.writer = .stopped := by
  induction h with
  | refl =>
    intro hc
    simp [started] at hc
  | tail hab hstep ih =>
    cases hstep with
    | signal_stop =>
      intro hc
      obtain ⟨_, hw, hwr⟩ := ih hc
      exact ⟨rfl, hw, hwr⟩
    | worker_iterate i hf hr =>
      exact ih
    | worker_exit i hf hr =>
      intro hc
      obtain ⟨hfl, hw, hwr⟩ := ih hc
      have : WState.running = WState.stopped := hw _ (List.get?_mem hr)
      exact absurd this (by simp)
    | writer_persist hr =>
      exact ih
    | writer_exit hf hr =>
      intro hc
      obtain ⟨hfl, hw, hwr⟩ := ih hc
      exact ⟨hfl, hw, rfl⟩
    | stop_return hf hw hwr =>
      intro _
      exact ⟨hf, hw, hwr⟩

/-- C8: in any state reachable from a started system in which `stop_logging`
has returned, every sensor worker and the writer are Stopped, and no further
reading can be produced or persisted (no `produce` or `persist` step is
enabled). -/
theorem stop_join_semantics (n : ℕ) (s : Sys)
    (hreach : Reaches (started n) s) (hret : s.stop_returned = true) :
    (∀ w ∈ s.workers, w = .stopped) ∧ s.writer = .stopped ∧
    (∀ (i : ℕ) (t : Sys), ¬ Step s (.produce i) t) ∧
    (∀ t : Sys, ¬ Step s .persist t) := by
  obtain ⟨hfl, hw, hwr⟩ := reaches_stop_invariant hreach hret
  refine ⟨hw, hwr, ?_, ?_⟩
  · intro i t hstep
    cases hstep
    simp_all
  · intro t hstep
    cases hstep
    simp_all

/-- Witness for C8: an explicit shutdown trace of a system with one worker —
signal, worker exits, writer exits, stop returns — after which nothing can
produce or persist. -/
theorem stop_join_semantics_witness :
    (∀ w ∈ (Sys.mk false [.stopped] .stopped true).workers, w = WState.stopped) ∧
    (Sys.mk false [.stopped] .stopped true).writer = WState.stopped ∧
    (∀ (i : ℕ) (t : Sys),
      ¬ Step (Sys.mk false [.stopped] .stopped true) (.produce i) t) ∧
    (∀ t : Sys, ¬ Step (Sys.mk false [.stopped] .stopped true) .persist t) := by
  have t1 : Step (started 1) .tau (Sys.mk false [.running] .running false) :=
    Step.signal_stop (started 1)
  have t2 : Step (Sys.mk false [.running] .running false) .tau
      (Sys.mk false [.stopped] .running false) :=
    Step.worker_exit (Sys.mk false [.running] .running false) 0 rfl rfl
  have t3 : Step (Sys.mk false [.stopped] .running false) .tau
      (Sys.mk false [.stopped] .stopped false) :=
    Step.writer_exit (Sys.mk false [.stopped] .running false) rfl rfl
  have t4 : Step (Sys.mk false [.stopped] .stopped false) .tau
      (Sys.mk false [.stopped] .stopped true) :=
    Step.stop_return (Sys.mk false [.stopped] .stopped false) rfl
      (by intro w hw; simpa using hw) rfl
  have hreach : Reaches (started 1) (Sys.mk false [.stopped] .stopped true) :=
    .tail (.tail (.tail (.tail (.refl (started 1)) t1) t2) t3) t4
  exact stop_join_semantics 1 (Sys.mk false [.stopped] .stopped true) hreach rfl

end RoomPulse
